import Mathlib

/-!
Verification of the Kassia asset-integration pipeline and job state machine.

Shallow embedding of the Python sources:
 - app/core/update_integration.py   (UpdateIntegrator, UpdateIntegrationManager)
 - app/core/driver_integration.py   (DriverIntegrator, DriverIntegrationManager)
 - app/core/asset_providers/local.py (LocalAssetProvider)
 - app/utils/job_database.py        (JobDatabase)
 - web/app.py                       (JobStatus, execute_cli_wim_workflow_real)

External effects (subprocess calls, the filesystem, exceptions raised by
awaited coroutines) are passed in as explicit behaviour parameters; Python
exceptions are modelled with Except / Option; the SQLite job store is a list
of rows.  Wall-clock durations (float seconds) are not modelled: no verified
property mentions them.
-/

/-- Character-list infix test: `needle` occurs contiguously inside the list. -/
def listIsInfix (needle : List Char) : List Char → Bool
  | [] => needle.isEmpty
  | c :: rest => needle.isPrefixOf (c :: rest) || listIsInfix needle rest

/-- ASCII lowercasing of a string, mirroring what Python str.lower does on the
ASCII range (the patterns matched by the code are pure ASCII). -/
def strLower (s : String) : String := ⟨s.data.map Char.toLower⟩

/-- Take the first n characters of a string, mirroring the Python slice s[:n]
(Python strings index by code point, as List Char does). -/
def strTake (s : String) (n : Nat) : String := ⟨s.data.take n⟩

/-- Model of the Python test `needle in hay.lower()` used to classify DISM
output (the needle is already lowercase at every call site). -/
def strContainsLower (hay needle : String) : Bool :=
  listIsInfix needle.data (strLower hay).data

namespace Kassia

/-! ## Asset model (app/core/asset_providers/base.py) -/

/-- DriverType enum from base.py: inf, appx, exe. -/
inductive DriverType
  | inf
  | appx
  | exe
deriving DecidableEq, Repr

/-- UpdateType enum from base.py: msu, cab, exe, msi.  These four values are
the whole enum, so the unknown-type fallback branches in the integrators are
unreachable and are not represented. -/
inductive UpdateType
  | msu
  | cab
  | exe
  | msi
deriving DecidableEq, Repr

/-- DriverAsset dataclass (base.py): the fields the verified code reads.
The filesystem path is represented by the per-asset environment instead. -/
structure DriverAsset where
  name : String
  driver_type : DriverType
  family_id : Option Int
  supported_devices : List Int
  supported_os : List Int
  order : Int
deriving DecidableEq, Repr

/-- UpdateAsset dataclass (base.py): the fields the verified code reads. -/
structure UpdateAsset where
  name : String
  update_type : UpdateType
  update_version : Option String
  supported_os : List Int
  requires_reboot : Bool
  order : Int
deriving DecidableEq, Repr

/-- Behaviour of one awaited asyncio.create_subprocess_exec invocation:
it either completes with an exit code and decoded stdout and stderr, hits the
asyncio.wait_for timeout, or raises. -/
inductive SubprocBehavior
  | completes (returncode : Int) (stdout stderr : String)
  | timesOut
  | raises (msg : String)
deriving DecidableEq, Repr

/-! ## app/core/update_integration.py -/

namespace UpdateIntegration

/-- Structured form of the message strings built by update_integration.py.
Human-readable formatting (MB figures rendered from these numbers) is
presentation only; each constructor carries exactly the data interpolated
into the corresponding Python f-string. -/
inductive UpdMsg
  | installedOk (fileSizeBytes : Nat)
  | notApplicable
  | alreadyInstalled
  | dismFailed (returncode : Int) (errPrefix : String)
  | fileNotFound
  | fileEmpty
  | timedOut
  | execFailed (msg : String)
  | staged (fileSizeBytes copiedFiles : Nat)
  | stageFailed (msg : String)
  | unexpectedError (msg : String)
deriving DecidableEq, Repr

/-- UpdateIntegrationResult dataclass (duration omitted: wall-clock float). -/
structure UpdateIntegrationResult where
  update_asset : UpdateAsset
  success : Bool
  method : String
  message : UpdMsg
  size_added : Option Int := none
deriving DecidableEq, Repr

/-- Behaviour of the Yunona staging path for one update: the copy loop and
the two file writes either succeed having copied some files, or raise. -/
inductive StageBehavior
  | ok (copiedFiles : Nat)
  | raises (msg : String)
deriving DecidableEq, Repr

/-- Everything the outside world decides while one update is processed. -/
structure UpdateEnv where
  fileExists : Bool
  fileSize : Nat
  dism : SubprocBehavior
  stage : StageBehavior
  fsBefore : List Nat
  fsAfter : List Nat
  unexpected : Option String
deriving DecidableEq, Repr

/-- The names imported at the top of update_integration.py.  The module body
references the name os without ever importing it. -/
def updateIntegrationImports : List String :=
  ["asyncio", "subprocess", "pathlib", "typing", "dataclasses",
   "datetime", "logging", "shutil", "json"]

/-- Body of UpdateIntegrator._get_mount_size before its catch-all handler:
walking the tree with os.walk raises NameError because os is not among the
module imports; otherwise it would sum the file sizes. -/
def getMountSizeBody (fs : List Nat) : Except String Int :=
  if updateIntegrationImports.contains "os" then
    .ok (fs.foldl (fun acc s => acc + (s : Int)) 0)
  else
    .error "NameError: name os is not defined"

/-- UpdateIntegrator._get_mount_size: try the walk, return 0 on any
exception. -/
def getMountSize (fs : List Nat) : Int :=
  match getMountSizeBody fs with
  | .ok n => n
  | .error _ => 0

/-- UpdateIntegrator._integrate_dism_update. -/
def integrateDismUpdate (u : UpdateAsset) (env : UpdateEnv) : UpdateIntegrationResult :=
  if ¬env.fileExists then
    { update_asset := u, success := false, method := "DISM", message := .fileNotFound }
  else if env.fileSize = 0 then
    { update_asset := u, success := false, method := "DISM", message := .fileEmpty }
  else
    match env.dism with
    | .completes rc out err =>
        if rc = 0 then
          { update_asset := u, success := true, method := "DISM",
            message := .installedOk env.fileSize }
        else if strContainsLower err "not applicable" || strContainsLower out "not applicable" then
          { update_asset := u, success := false, method := "DISM", message := .notApplicable }
        else if strContainsLower err "already installed" || strContainsLower out "already installed" then
          { update_asset := u, success := true, method := "DISM", message := .alreadyInstalled }
        else
          { update_asset := u, success := false, method := "DISM",
            message := .dismFailed rc (strTake err 200) }
    | .timesOut =>
        { update_asset := u, success := false, method := "DISM", message := .timedOut }
    | .raises m =>
        { update_asset := u, success := false, method := "DISM", message := .execFailed m }

/-- UpdateIntegrator._stage_update_to_yunona. -/
def stageUpdateToYunona (u : UpdateAsset) (env : UpdateEnv) : UpdateIntegrationResult :=
  if ¬env.fileExists then
    { update_asset := u, success := false, method := "YUNONA", message := .fileNotFound }
  else
    match env.stage with
    | .ok copied =>
        { update_asset := u, success := true, method := "YUNONA",
          message := .staged env.fileSize copied }
    | .raises m =>
        { update_asset := u, success := false, method := "YUNONA", message := .stageFailed m }

/-- Per-category counters of UpdateIntegrator.integration_stats. -/
structure IntegrationStats where
  total : Nat := 0
  successful : Nat := 0
  failed : Nat := 0
  msu_via_dism : Nat := 0
  cab_via_dism : Nat := 0
  exe_via_yunona : Nat := 0
  msi_via_yunona : Nat := 0
  total_size_added : Int := 0
deriving DecidableEq, Repr

/-- Fresh statistics of a newly constructed UpdateIntegrator. -/
def initStats : IntegrationStats := {}

/-- UpdateIntegrator._integrate_single_update: dispatch by update type,
bump the per-type success counter (the stats mutation done inside the Python
method), and for successful MSU/CAB results set size_added from the mount
sizes measured before and after. -/
def integrateSingleUpdateSt (stats : IntegrationStats) (u : UpdateAsset) (env : UpdateEnv) :
    IntegrationStats × UpdateIntegrationResult :=
  let initialSize := getMountSize env.fsBefore
  let withSize : UpdateIntegrationResult → UpdateIntegrationResult := fun r =>
    if r.success then
      { r with size_added := some (max 0 (getMountSize env.fsAfter - initialSize)) }
    else r
  match u.update_type with
  | .msu =>
      let r := integrateDismUpdate u env
      ((if r.success then { stats with msu_via_dism := stats.msu_via_dism + 1 } else stats),
       withSize r)
  | .cab =>
      let r := integrateDismUpdate u env
      ((if r.success then { stats with cab_via_dism := stats.cab_via_dism + 1 } else stats),
       withSize r)
  | .exe =>
      let r := stageUpdateToYunona u env
      ((if r.success then { stats with exe_via_yunona := stats.exe_via_yunona + 1 } else stats), r)
  | .msi =>
      let r := stageUpdateToYunona u env
      ((if r.success then { stats with msi_via_yunona := stats.msi_via_yunona + 1 } else stats), r)

/-- The ERROR result appended by the per-asset exception handler of
integrate_updates. -/
def updateErrorResult (u : UpdateAsset) (m : String) : UpdateIntegrationResult :=
  { update_asset := u, success := false, method := "ERROR", message := .unexpectedError m }

/-- One iteration of the integrate_updates loop: await the single-update
call inside try (env.unexpected raising), append exactly one result, and
bump successful or failed plus the truthiness-guarded size accumulator. -/
def updateLoopStep (acc : IntegrationStats × List UpdateIntegrationResult)
    (p : UpdateAsset × UpdateEnv) : IntegrationStats × List UpdateIntegrationResult :=
  match p.2.unexpected with
  | some m =>
      ({ acc.1 with failed := acc.1.failed + 1 }, acc.2 ++ [updateErrorResult p.1 m])
  | none =>
      let sr := integrateSingleUpdateSt acc.1 p.1 p.2
      let r := sr.2
      let st :=
        if r.success then
          { sr.1 with
            successful := sr.1.successful + 1,
            total_size_added := sr.1.total_size_added +
              (match r.size_added with
               | some n => if n = 0 then 0 else n
               | none => 0) }
        else { sr.1 with failed := sr.1.failed + 1 }
      (st, acc.2 ++ [r])

/-- Stable ascending sort by the order field, modelling the Python call
sorted(updates, key=lambda u: u.order); each asset carries its environment. -/
def sortUpdates (l : List (UpdateAsset × UpdateEnv)) : List (UpdateAsset × UpdateEnv) :=
  l.insertionSort (fun a b => a.1.order ≤ b.1.order)

/-- UpdateIntegrator.integrate_updates: mount-point guards, then the
best-effort loop over the order-sorted updates. -/
def integrateUpdates (mountExists windowsDirExists : Bool) (stats0 : IntegrationStats)
    (l : List (UpdateAsset × UpdateEnv)) :
    Except String (IntegrationStats × List UpdateIntegrationResult) :=
  if ¬mountExists then .error "Mount point does not exist"
  else if ¬windowsDirExists then .error "Invalid mount point - no Windows directory"
  else
    .ok ((sortUpdates l).foldl updateLoopStep ({ stats0 with total := l.length }, []))

/-- A pair fails in the loop when the awaited call raises or the returned
result is unsuccessful. -/
def updStepFails (p : UpdateAsset × UpdateEnv) : Bool :=
  p.2.unexpected.isSome || !(integrateSingleUpdateSt initStats p.1 p.2).2.success

end UpdateIntegration

/-! ## app/core/driver_integration.py -/

namespace DriverIntegration

/-- Structured form of the message strings built by driver_integration.py. -/
inductive DrvMsg
  | noInfFiles
  | installedOk (infFiles : Nat)
  | dismFailed (returncode : Int) (errorOutput : String)
  | timedOut
  | execFailed (msg : String)
  | noAppxFiles
  | stagedAppx (appxFiles : Nat)
  | stageFailedAppx (msg : String)
  | noExeFiles
  | stagedExe (exeFiles : Nat)
  | stageFailedExe (msg : String)
  | unexpectedError (msg : String)
deriving DecidableEq, Repr

/-- DriverIntegrationResult dataclass (duration omitted: wall-clock float). -/
structure DriverIntegrationResult where
  driver_asset : DriverAsset
  success : Bool
  method : String
  message : DrvMsg
  files_processed : Nat := 0
deriving DecidableEq, Repr

/-- Behaviour of one staging attempt (copy loop plus script write). -/
inductive StageBehavior
  | ok (copiedFiles : Nat)
  | raises (msg : String)
deriving DecidableEq, Repr

/-- Everything the outside world decides while one driver is processed. -/
structure DriverEnv where
  infFileCount : Nat
  appxFileCount : Nat
  exeFileCount : Nat
  dism : SubprocBehavior
  stage : StageBehavior
  unexpected : Option String
deriving DecidableEq, Repr

/-- DriverIntegrator._integrate_inf_driver: every non-zero DISM exit is a
failure carrying the full decoded stderr; there is no no-op classification
in this function. -/
def integrateInfDriver (d : DriverAsset) (env : DriverEnv) : DriverIntegrationResult :=
  if env.infFileCount = 0 then
    { driver_asset := d, success := false, method := "DISM", message := .noInfFiles }
  else
    match env.dism with
    | .completes rc _out err =>
        if rc = 0 then
          { driver_asset := d, success := true, method := "DISM",
            message := .installedOk env.infFileCount,
            files_processed := env.infFileCount }
        else
          { driver_asset := d, success := false, method := "DISM",
            message := .dismFailed rc err }
    | .timesOut =>
        { driver_asset := d, success := false, method := "DISM", message := .timedOut }
    | .raises m =>
        { driver_asset := d, success := false, method := "DISM", message := .execFailed m }

/-- DriverIntegrator._stage_appx_driver. -/
def stageAppxDriver (d : DriverAsset) (env : DriverEnv) : DriverIntegrationResult :=
  if env.appxFileCount = 0 then
    { driver_asset := d, success := false, method := "YUNONA", message := .noAppxFiles }
  else
    match env.stage with
    | .ok copied =>
        { driver_asset := d, success := true, method := "YUNONA",
          message := .stagedAppx env.appxFileCount, files_processed := copied }
    | .raises m =>
        { driver_asset := d, success := false, method := "YUNONA", message := .stageFailedAppx m }

/-- DriverIntegrator._stage_exe_driver. -/
def stageExeDriver (d : DriverAsset) (env : DriverEnv) : DriverIntegrationResult :=
  if env.exeFileCount = 0 then
    { driver_asset := d, success := false, method := "YUNONA", message := .noExeFiles }
  else
    match env.stage with
    | .ok copied =>
        { driver_asset := d, success := true, method := "YUNONA",
          message := .stagedExe env.exeFileCount, files_processed := copied }
    | .raises m =>
        { driver_asset := d, success := false, method := "YUNONA", message := .stageFailedExe m }

/-- Per-category counters of DriverIntegrator.integration_stats. -/
structure DriverStats where
  total : Nat := 0
  successful : Nat := 0
  failed : Nat := 0
  inf_via_dism : Nat := 0
  appx_via_yunona : Nat := 0
  exe_via_yunona : Nat := 0
deriving DecidableEq, Repr

/-- Fresh statistics of a newly constructed DriverIntegrator. -/
def initDriverStats : DriverStats := {}

/-- DriverIntegrator._integrate_single_driver: dispatch by driver type and
bump the per-type success counter. -/
def integrateSingleDriverSt (stats : DriverStats) (d : DriverAsset) (env : DriverEnv) :
    DriverStats × DriverIntegrationResult :=
  match d.driver_type with
  | .inf =>
      let r := integrateInfDriver d env
      ((if r.success then { stats with inf_via_dism := stats.inf_via_dism + 1 } else stats), r)
  | .appx =>
      let r := stageAppxDriver d env
      ((if r.success then { stats with appx_via_yunona := stats.appx_via_yunona + 1 } else stats), r)
  | .exe =>
      let r := stageExeDriver d env
      ((if r.success then { stats with exe_via_yunona := stats.exe_via_yunona + 1 } else stats), r)

/-- The ERROR result appended by the per-asset exception handler of
integrate_drivers. -/
def driverErrorResult (d : DriverAsset) (m : String) : DriverIntegrationResult :=
  { driver_asset := d, success := false, method := "ERROR", message := .unexpectedError m }

/-- One iteration of the integrate_drivers loop. -/
def driverLoopStep (acc : DriverStats × List DriverIntegrationResult)
    (p : DriverAsset × DriverEnv) : DriverStats × List DriverIntegrationResult :=
  match p.2.unexpected with
  | some m =>
      ({ acc.1 with failed := acc.1.failed + 1 }, acc.2 ++ [driverErrorResult p.1 m])
  | none =>
      let sr := integrateSingleDriverSt acc.1 p.1 p.2
      let st :=
        if sr.2.success then { sr.1 with successful := sr.1.successful + 1 }
        else { sr.1 with failed := sr.1.failed + 1 }
      (st, acc.2 ++ [sr.2])

/-- Stable ascending sort by the order field, modelling
sorted(drivers, key=lambda d: d.order). -/
def sortDrivers (l : List (DriverAsset × DriverEnv)) : List (DriverAsset × DriverEnv) :=
  l.insertionSort (fun a b => a.1.order ≤ b.1.order)

/-- DriverIntegrator.integrate_drivers: mount-point guards, the awaited
_ensure_yunona_in_wim copy (which can raise out of the method), then the
best-effort loop over the order-sorted drivers. -/
def integrateDrivers (mountExists windowsDirExists : Bool)
    (ensureYunona : Except String Unit) (stats0 : DriverStats)
    (l : List (DriverAsset × DriverEnv)) :
    Except String (DriverStats × List DriverIntegrationResult) :=
  if ¬mountExists then .error "Mount point does not exist"
  else if ¬windowsDirExists then .error "Invalid mount point - no Windows directory"
  else
    match ensureYunona with
    | .error m => .error m
    | .ok _ =>
        .ok ((sortDrivers l).foldl driverLoopStep ({ stats0 with total := l.length }, []))

/-- A pair fails in the loop when the awaited call raises or the returned
result is unsuccessful. -/
def drvStepFails (p : DriverAsset × DriverEnv) : Bool :=
  p.2.unexpected.isSome || !(integrateSingleDriverSt initDriverStats p.1 p.2).2.success

end DriverIntegration

/-! ## app/core/asset_providers/local.py -/

namespace LocalProvider

/-- One driver catalog entry as seen by LocalAssetProvider: the parsed JSON
config plus the file inventory of the directory holding it (what rglob
finds).  parseOk models whether json.load succeeded; rglob discovery order
is the list order of the catalog. -/
structure DriverConfig where
  parseOk : Bool
  driverName : Option String
  dirName : String
  supportedOperatingSystems : List Int
  supportedDevices : List Int
  driverFamilyId : Option Int
  orderField : Option Int
  infFiles : Nat
  appxFiles : Nat
  exeFiles : Nat
deriving DecidableEq, Repr

/-- LocalAssetProvider._detect_driver_type: first matching file kind wins,
defaulting to INF. -/
def detectDriverType (c : DriverConfig) : DriverType :=
  if c.infFiles ≠ 0 then .inf
  else if c.appxFiles ≠ 0 then .appx
  else if c.exeFiles ≠ 0 then .exe
  else .inf

/-- LocalAssetProvider._find_driver_files: count of files of the detected
type (the patterns dict falls back to the INF pattern). -/
def findDriverFilesCount (c : DriverConfig) : DriverType → Nat
  | .inf => c.infFiles
  | .appx => c.appxFiles
  | .exe => c.exeFiles

/-- LocalAssetProvider._load_driver_from_config: OS filter (empty list means
universal), driver-type detection, and the driver-files existence check.
The device_family argument is accepted but never consulted, exactly as in
the source; supportedDevices is copied into the asset unchecked. -/
def loadDriverFromConfig (c : DriverConfig) (device_family : String) (os_id : Int) :
    Option DriverAsset :=
  if ¬c.parseOk then none
  else if c.supportedOperatingSystems ≠ [] ∧ os_id ∉ c.supportedOperatingSystems then none
  else
    let t := detectDriverType c
    if findDriverFilesCount c t = 0 then none
    else
      some
        { name := c.driverName.getD c.dirName
          driver_type := t
          family_id := c.driverFamilyId
          supported_devices := c.supportedDevices
          supported_os := c.supportedOperatingSystems
          order := c.orderField.getD 9999 }

/-- LocalAssetProvider.get_drivers: load every catalog entry (per-file
exceptions yield None and are skipped), then stable-sort ascending by
order. -/
def getDrivers (catalog : List DriverConfig) (device_family : String) (os_id : Int) :
    List DriverAsset :=
  (catalog.filterMap (loadDriverFromConfig · device_family os_id)).insertionSort
    (fun a b => a.order ≤ b.order)

/-- Modelled from the spec: the resolve predicate of section 4.1, which in
addition to the OS filter requires that a driver with a device restriction
share at least one id with the device declared supported device ids.  This
definition follows the spec wording and exists only to be compared with
getDrivers; the source performs no device filtering. -/
def specResolveDrivers (catalog : List DriverConfig) (deviceIds : List Int) (os_id : Int) :
    List DriverAsset :=
  ((catalog.filter (fun c =>
      (c.supportedOperatingSystems = [] ∨ os_id ∈ c.supportedOperatingSystems) ∧
      (c.supportedDevices = [] ∨ ∃ i ∈ c.supportedDevices, i ∈ deviceIds))).filterMap
    (fun c => loadDriverFromConfig c "" os_id)).insertionSort (fun a b => a.order ≤ b.order)

end LocalProvider

/-! ## app/utils/job_database.py -/

namespace JobDb

/-- One-level JSON value: the shapes stored in the results blob of a job.
Python json.dumps and json.loads are mutually inverse on such values, so the
TEXT column is modelled by the value it serialises (dumps is injective and
never produces the empty string, hence the truthiness test on the column in
get_job always passes for a stored blob). -/
inductive JVal
  | jstr (s : String)
  | jint (n : Int)
  | jbool (b : Bool)
deriving DecidableEq, Repr

/-- The results dictionary attached to a job. -/
abbrev JObj := List (String × JVal)

/-- The dictionary JobStatus.create_job passes to JobDatabase.create_job. -/
structure JobData where
  id : String
  device : String
  os_id : Int
  status : String
  progress : Int
  current_step : Option String
  step_number : Int
  total_steps : Int
  created_at : String
  started_at : Option String
  completed_at : Option String
  error : Option String
  results : JObj
  user_id : String
  skip_drivers : Bool
  skip_updates : Bool
  skip_validation : Bool
  created_by : String
deriving DecidableEq, Repr

/-- Python sqlite3 adapts bool parameters to INTEGER 1 or 0. -/
def sqliteBool (b : Bool) : Int := if b then 1 else 0

/-- One row of the jobs table.  The three skip flags are the INTEGER values
sqlite stores for Python booleans; results_text stands for the TEXT column
holding json.dumps of the results dictionary (see JVal). -/
structure JobRow where
  id : String
  device : String
  os_id : Int
  status : String
  progress : Int
  current_step : Option String
  step_number : Int
  total_steps : Int
  created_at : String
  started_at : Option String
  completed_at : Option String
  error : Option String
  results_text : JObj
  user_id : String
  skip_drivers : Int
  skip_updates : Int
  skip_validation : Int
  created_by : String
deriving DecidableEq, Repr

/-- The INSERT of JobDatabase.create_job: each column from the job_data
dictionary, booleans adapted to integers, results serialised. -/
def rowOfData (d : JobData) : JobRow :=
  { id := d.id, device := d.device, os_id := d.os_id, status := d.status
    progress := d.progress, current_step := d.current_step
    step_number := d.step_number, total_steps := d.total_steps
    created_at := d.created_at, started_at := d.started_at
    completed_at := d.completed_at, error := d.error
    results_text := d.results, user_id := d.user_id
    skip_drivers := sqliteBool d.skip_drivers
    skip_updates := sqliteBool d.skip_updates
    skip_validation := sqliteBool d.skip_validation
    created_by := d.created_by }

/-- The dictionary JobDatabase.get_job returns: the row with the results
column parsed back by json.loads. -/
structure JobDict where
  id : String
  device : String
  os_id : Int
  status : String
  progress : Int
  current_step : Option String
  step_number : Int
  total_steps : Int
  created_at : String
  started_at : Option String
  completed_at : Option String
  error : Option String
  results : JObj
  user_id : String
  skip_drivers : Int
  skip_updates : Int
  skip_validation : Int
  created_by : String
deriving DecidableEq, Repr

/-- Row-to-dictionary conversion done by get_job: the stored text is always
truthy for a created job (dumps never yields the empty string) and loads
recovers the stored object. -/
def dictOfRow (r : JobRow) : JobDict :=
  { id := r.id, device := r.device, os_id := r.os_id, status := r.status
    progress := r.progress, current_step := r.current_step
    step_number := r.step_number, total_steps := r.total_steps
    created_at := r.created_at, started_at := r.started_at
    completed_at := r.completed_at, error := r.error
    results := r.results_text, user_id := r.user_id
    skip_drivers := r.skip_drivers, skip_updates := r.skip_updates
    skip_validation := r.skip_validation, created_by := r.created_by }

/-- JobDatabase.get_job: SELECT by primary key. -/
def getJob (db : List JobRow) (id : String) : Option JobDict :=
  (db.find? (fun j => j.id == id)).map dictOfRow

/-- The dynamic UPDATE of JobDatabase.update_job restricted to one keyed
row: every row whose id matches gets the SET clause applied (the id is the
primary key, so at most one row matches in a well-formed table).  The
function returns True whether or not any row matched. -/
def dbUpdateRows (db : List JobRow) (id : String) (f : JobRow → JobRow) : List JobRow :=
  db.map fun j => if j.id = id then f j else j

/-- Python equality between a written boolean and the integer read back from
sqlite: True == 1 and False == 0 hold in Python. -/
def pyEqBool (b : Bool) (n : Int) : Prop := n = sqliteBool b

end JobDb

/-! ## web/app.py: JobStatus startup reconciliation, cancel, broadcast queue -/

namespace WebApp

open JobDb

/-- JobDatabase.get_all_jobs: SELECT ordered by created_at DESC (sqlite
BINARY text ordering) limited to 100 rows. -/
def getAllJobs (db : List JobRow) : List JobRow :=
  (db.insertionSort (fun a b => b.created_at ≤ a.created_at)).take 100

/-- The field updates JobStatus._load_jobs_from_database applies to a job it
found running: status failed, the fixed error string, completion stamp. -/
def markInterrupted (now : String) (j : JobRow) : JobRow :=
  { j with status := "failed"
           error := some "Application restart during execution"
           completed_at := some now }

/-- JobStatus._load_jobs_from_database: walk the startup snapshot and push
the interrupted-update through JobDatabase.update_job for every job whose
snapshot status is running. -/
def reconcileStartup (db : List JobRow) (now : String) : List JobRow :=
  (getAllJobs db).foldl
    (fun acc j => if j.status = "running" then dbUpdateRows acc j.id (markInterrupted now) else acc)
    db

/-- A queued broadcast message (payload abstracted to what identifies it). -/
structure BroadcastMessage where
  msgType : String
  job_id : String
deriving DecidableEq, Repr

/-- An asyncio.Queue of broadcast messages: maxsize 0 means unbounded, the
asyncio default. -/
structure BQueue where
  maxsize : Nat
  items : List BroadcastMessage
deriving DecidableEq, Repr

/-- JobStatus.initialize_async creates the broadcast queue with
asyncio.Queue(), i.e. with maxsize 0: unbounded. -/
def newBroadcastQueue : BQueue := { maxsize := 0, items := [] }

/-- The enqueue in JobStatus.update_job: put_nowait inside try/except
QueueFull.  put_nowait appends when the queue is unbounded or has room and
raises QueueFull otherwise; the handler drops the message being enqueued and
the producer never waits.  Returns the queue and whether the message was
accepted. -/
def putNowaitCaught (q : BQueue) (m : BroadcastMessage) : BQueue × Bool :=
  if q.maxsize = 0 ∨ q.items.length < q.maxsize then
    ({ q with items := q.items ++ [m] }, true)
  else
    (q, false)

end WebApp

/-! ## web/app.py: execute_cli_wim_workflow_real -/

namespace Workflow

/-- One call to JobStatus.update_job made by the workflow: only the keyword
arguments actually passed are set. -/
structure JobUpdateCall where
  status : Option String := none
  current_step : Option String := none
  step_number : Option Nat := none
  progress : Option Nat := none
  error : Option String := none
  completed_at : Bool := false
  results_set : Bool := false
deriving DecidableEq, Repr

/-- An exception escaping a workflow stage: a DismError or anything else. -/
inductive WfExc
  | dism (msg : String)
  | other (msg : String)
deriving DecidableEq, Repr

deriving instance DecidableEq for Except

/-- Everything the outside world decides during one workflow run. -/
structure WorkflowEnv where
  hasSbi : Bool
  prepareWim : Except WfExc Unit
  mountWim : Except WfExc Unit
  windowsDirExists : Bool
  driverCount : Nat
  driverIntegrationOk : Bool
  driverSuccessCount : Nat
  driverFailedCount : Nat
  updateCount : Nat
  updateIntegrationOk : Bool
  updateSuccessCount : Nat
  updateFailedCount : Nat
  exportWim : Except WfExc Unit
  cleanupWim : Except WfExc Unit
  emergencyCleanupFails : Bool
deriving DecidableEq, Repr

/-- Result of one run: the ordered update_job calls, whether a final WIM
path was returned, whether the emergency cleanup was attempted, and which
exception (if any) reached the handlers at the end of the function. -/
structure WorkflowRun where
  trace : List JobUpdateCall
  returnedWim : Bool
  emergencyCleanupAttempted : Bool
  caught : Option WfExc
deriving DecidableEq, Repr

/-- The update_job call of the failure paths: status, error, completion
stamp, no step number. -/
def failUpdate (msg : String) : JobUpdateCall :=
  { status := some "failed", error := some msg, completed_at := true }

/-- The two exception handlers at the bottom of
execute_cli_wim_workflow_real: DismError prefixes the message, updates the
job, then tries the emergency cleanup (a cleanup failure is only logged);
every other exception prefixes differently, updates the job and attempts no
cleanup. -/
def handleExc (tr : List JobUpdateCall) (e : WfExc) : WorkflowRun :=
  match e with
  | .dism m =>
      { trace := tr ++ [failUpdate ("DISM Error in REAL workflow: " ++ m)]
        returnedWim := false
        emergencyCleanupAttempted := true
        caught := some (.dism m) }
  | .other m =>
      { trace := tr ++ [failUpdate ("Unexpected error in REAL workflow: " ++ m)]
        returnedWim := false
        emergencyCleanupAttempted := false
        caught := some (.other m) }

/-- The update_job calls of the driver-integration stage (step 4): start
plus completion when drivers are present and not skipped, a single call
otherwise.  Integration failure is logged and the workflow continues. -/
def driverStageCalls (skipDrivers : Bool) (env : WorkflowEnv) : List JobUpdateCall :=
  if ¬skipDrivers ∧ env.driverCount ≠ 0 then
    let n := env.driverCount
    [{ current_step := some ("Integrating " ++ toString n ++ " drivers")
       step_number := some 4, progress := some 40 },
     if env.driverIntegrationOk then
       let s := env.driverSuccessCount
       { current_step := some ("Driver integration completed (" ++ toString s ++ "/" ++ toString n ++ ")")
         step_number := some 4, progress := some 50 }
     else
       let f := env.driverFailedCount
       { current_step := some ("Driver integration failed (" ++ toString f ++ "/" ++ toString n ++ ") - continuing")
         step_number := some 4, progress := some 50 }]
  else if skipDrivers then
    [{ current_step := some "Driver integration skipped", step_number := some 4, progress := some 50 }]
  else
    [{ current_step := some "No drivers found for integration", step_number := some 4, progress := some 50 }]

/-- The update_job calls of the update-integration stage (step 5). -/
def updateStageCalls (skipUpdates : Bool) (env : WorkflowEnv) : List JobUpdateCall :=
  if ¬skipUpdates ∧ env.updateCount ≠ 0 then
    let n := env.updateCount
    [{ current_step := some ("Integrating " ++ toString n ++ " updates")
       step_number := some 5, progress := some 65 },
     if env.updateIntegrationOk then
       let s := env.updateSuccessCount
       { current_step := some ("Update integration completed (" ++ toString s ++ "/" ++ toString n ++ ")")
         step_number := some 5, progress := some 75 }
     else
       let f := env.updateFailedCount
       { current_step := some ("Update integration failed (" ++ toString f ++ "/" ++ toString n ++ ") - continuing")
         step_number := some 5, progress := some 75 }]
  else if skipUpdates then
    [{ current_step := some "Update integration skipped", step_number := some 5, progress := some 75 }]
  else
    [{ current_step := some "No updates found for integration", step_number := some 5, progress := some 75 }]

/-- execute_cli_wim_workflow_real: the straight-line stage sequence with its
update_job calls, early SBI return, the mount-verification raise, and the
two exception handlers. -/
def runWorkflow (env : WorkflowEnv) (skipDrivers skipUpdates : Bool) : WorkflowRun :=
  if ¬env.hasSbi then
    { trace := [failUpdate "Cannot execute WIM workflow without SBI"]
      returnedWim := false, emergencyCleanupAttempted := false, caught := none }
  else
    let tr : List JobUpdateCall :=
      [{ status := some "running", current_step := some "Starting REAL WIM workflow"
         step_number := some 1, progress := some 5 },
       { current_step := some "Preparing WIM for modification"
         step_number := some 2, progress := some 15 }]
    match env.prepareWim with
    | .error e => handleExc tr e
    | .ok _ =>
      let tr := tr ++
        [{ current_step := some "Mounting WIM for modification"
           step_number := some 3, progress := some 25 }]
      match env.mountWim with
      | .error e => handleExc tr e
      | .ok _ =>
        if ¬env.windowsDirExists then
          handleExc
            (tr ++ [failUpdate "REAL mount verification failed: No Windows directory"])
            (.other "REAL mount verification failed: No Windows directory")
        else
          let tr := tr ++ driverStageCalls skipDrivers env
          let tr := tr ++ updateStageCalls skipUpdates env
          let tr := tr ++
            [{ current_step := some "Exporting final WIM", step_number := some 6, progress := some 85 }]
          match env.exportWim with
          | .error e => handleExc tr e
          | .ok _ =>
            let tr := tr ++
              [{ current_step := some "Cleanup temporary files", step_number := some 7, progress := some 95 }]
            match env.cleanupWim with
            | .error e => handleExc tr e
            | .ok _ =>
              { trace := tr ++
                  [{ status := some "completed", current_step := some "REAL WIM processing completed"
                     step_number := some 8, progress := some 100, completed_at := true
                     results_set := true }]
                returnedWim := true
                emergencyCleanupAttempted := false
                caught := none }

/-- The step_number values written over one run, in call order. -/
def stepNumbersOf (run : WorkflowRun) : List Nat :=
  run.trace.filterMap (fun c => c.step_number)

/-- The job fields a sequence of update_job calls leaves behind (update_job
merges only the keys passed). -/
structure JobView where
  status : Option String := none
  error : Option String := none
deriving DecidableEq, Repr

/-- Merge one update_job call into the job view. -/
def applyCall (v : JobView) (c : JobUpdateCall) : JobView :=
  { status := match c.status with | some s => some s | none => v.status
    error := match c.error with | some e => some e | none => v.error }

/-- The job status and error after a whole run. -/
def finalView (run : WorkflowRun) : JobView :=
  run.trace.foldl applyCall {}

end Workflow

/-! ## Concrete fixtures used by the claim theorems -/

open UpdateIntegration DriverIntegration LocalProvider JobDb WebApp Workflow

/-- JobDatabase.create_job: INSERT into the jobs table; a primary-key
violation raises sqlite3.IntegrityError, which the catch-all turns into
False with the database unchanged. -/
def createJob (db : List JobRow) (d : JobData) : List JobRow × Bool :=
  if db.any (fun j => j.id == d.id) then (db, false)
  else (db ++ [rowOfData d], true)

/-- The field updates JobStatus.cancel_job sends to the store. -/
def cancelUpdates (now : String) (j : JobRow) : JobRow :=
  { j with status := "cancelled", completed_at := some now }

/-- JobStatus.cancel_job: apply the cancel updates through
JobDatabase.update_job (which returns True regardless of the current status
of the job, and even when no row matches) and report that result. -/
def cancelJob (db : List JobRow) (id now : String) : List JobRow × Bool :=
  (dbUpdateRows db id (cancelUpdates now), true)

/-- A fixture MSU update. -/
def c1UpdateAsset : UpdateAsset :=
  { name := "KB5004442", update_type := .msu, update_version := none,
    supported_os := [], requires_reboot := false, order := 100 }

/-- Environment where DISM exits 1 with a not-applicable message. -/
def c1EnvNotApplicable : UpdateEnv :=
  { fileExists := true, fileSize := 7340032
    dism := .completes 1 "" "The specified package is not applicable to this image."
    stage := .ok 0, fsBefore := [], fsAfter := [], unexpected := none }

/-- Environment where DISM exits 1 with an already-installed message. -/
def c1EnvAlready : UpdateEnv :=
  { fileExists := true, fileSize := 7340032
    dism := .completes 1 "The package is already installed on this image." ""
    stage := .ok 0, fsBefore := [], fsAfter := [], unexpected := none }

/-- A fixture INF driver. -/
def c1Driver : DriverAsset :=
  { name := "net-adapter", driver_type := .inf, family_id := none,
    supported_devices := [], supported_os := [], order := 1 }

/-- Environment where DISM exits 3 while adding the driver. -/
def c1DrvEnv : DriverEnv :=
  { infFileCount := 2, appxFileCount := 0, exeFileCount := 0
    dism := .completes 3 "" "Error 3 adding driver package"
    stage := .ok 0, unexpected := none }

/-- A healthy CAB update work item. -/
def c2UpdOk : UpdateAsset × UpdateEnv :=
  ({ name := "u-ok", update_type := .cab, update_version := none,
     supported_os := [], requires_reboot := false, order := 1 },
   { fileExists := true, fileSize := 9, dism := .completes 0 "" ""
     stage := .ok 0, fsBefore := [], fsAfter := [], unexpected := none })

/-- A work item engineered to fail with a fatal DISM error. -/
def c2UpdBad : UpdateAsset × UpdateEnv :=
  ({ name := "u-bad", update_type := .msu, update_version := none,
     supported_os := [], requires_reboot := false, order := 2 },
   { fileExists := true, fileSize := 9, dism := .completes 50 "" "fatal"
     stage := .ok 0, fsBefore := [], fsAfter := [], unexpected := none })

/-- A healthy INF driver work item. -/
def c2DrvOk : DriverAsset × DriverEnv :=
  ({ name := "d-ok", driver_type := .inf, family_id := none,
     supported_devices := [], supported_os := [], order := 1 },
   { infFileCount := 1, appxFileCount := 0, exeFileCount := 0
     dism := .completes 0 "" "", stage := .ok 0, unexpected := none })

/-- A driver work item engineered to raise mid-processing. -/
def c2DrvBad : DriverAsset × DriverEnv :=
  ({ name := "d-bad", driver_type := .inf, family_id := none,
     supported_devices := [], supported_os := [], order := 2 },
   { infFileCount := 1, appxFileCount := 0, exeFileCount := 0
     dism := .completes 0 "" "", stage := .ok 0, unexpected := some "KeyError" })

/-- An already-installed MSU update work item: a successful immediate-path
integration with both mount measurements dead. -/
def c10Upd : UpdateAsset × UpdateEnv :=
  ({ name := "kb-again", update_type := .msu, update_version := none,
     supported_os := [], requires_reboot := false, order := 5 },
   { fileExists := true, fileSize := 4, dism := .completes 1 "already installed" ""
     stage := .ok 0, fsBefore := [10, 20], fsAfter := [10, 20, 30], unexpected := none })

instance : IsTotal DriverAsset (fun a b => a.order ≤ b.order) :=
  ⟨fun a b => le_total a.order b.order⟩

instance : IsTrans DriverAsset (fun a b => a.order ≤ b.order) :=
  ⟨fun _ _ _ h1 h2 => le_trans h1 h2⟩

/-- Catalog entry A: order 50, OS [10]. -/
def c5cfgA : DriverConfig :=
  { parseOk := true, driverName := some "A", dirName := "a"
    supportedOperatingSystems := [10], supportedDevices := [], driverFamilyId := none
    orderField := some 50, infFiles := 1, appxFiles := 0, exeFiles := 0 }

/-- Catalog entry B: order 10, no OS restriction. -/
def c5cfgB : DriverConfig :=
  { parseOk := true, driverName := some "B", dirName := "b"
    supportedOperatingSystems := [], supportedDevices := [], driverFamilyId := none
    orderField := some 10, infFiles := 1, appxFiles := 0, exeFiles := 0 }

/-- Catalog entry C: order 50, OS [11]. -/
def c5cfgC : DriverConfig :=
  { parseOk := true, driverName := some "C", dirName := "c"
    supportedOperatingSystems := [11], supportedDevices := [], driverFamilyId := none
    orderField := some 50, infFiles := 1, appxFiles := 0, exeFiles := 0 }

/-- The asset produced for entry A. -/
def c5assetA : DriverAsset :=
  { name := "A", driver_type := .inf, family_id := none
    supported_devices := [], supported_os := [10], order := 50 }

/-- The asset produced for entry B. -/
def c5assetB : DriverAsset :=
  { name := "B", driver_type := .inf, family_id := none
    supported_devices := [], supported_os := [], order := 10 }

/-- Catalog entry D: OS [10] but restricted to device id 42. -/
def c5cfgD : DriverConfig :=
  { parseOk := true, driverName := some "D", dirName := "d"
    supportedOperatingSystems := [10], supportedDevices := [42], driverFamilyId := none
    orderField := some 7, infFiles := 1, appxFiles := 0, exeFiles := 0 }

/-- The asset produced for entry D. -/
def c5assetD : DriverAsset :=
  { name := "D", driver_type := .inf, family_id := none
    supported_devices := [42], supported_os := [10], order := 7 }

/-- A fixture row found running at startup. -/
def c4RunningJob : JobRow :=
  { id := "job-1", device := "xX-39A", os_id := 10, status := "running"
    progress := 40, current_step := some "Mounting WIM for modification"
    step_number := 3, total_steps := 9, created_at := "2025-02-03T08:00:00"
    started_at := some "2025-02-03T08:00:05", completed_at := none, error := none
    results_text := [], user_id := "web_user", skip_drivers := 0, skip_updates := 0
    skip_validation := 0, created_by := "webui" }

/-- A fixture row already in the terminal completed state. -/
def c6DoneJob : JobRow :=
  { id := "job-9", device := "xX-39A", os_id := 10, status := "completed"
    progress := 100, current_step := some "REAL WIM processing completed"
    step_number := 8, total_steps := 9, created_at := "2025-02-01T10:00:00"
    started_at := some "2025-02-01T10:00:02", completed_at := some "2025-02-01T10:40:00"
    error := none, results_text := [("final_wim_size_mb", .jint 4100)]
    user_id := "web_user", skip_drivers := 0, skip_updates := 0
    skip_validation := 0, created_by := "webui" }

/-- The row cancel_job writes over the completed fixture. -/
def c6OverwrittenJob : JobRow :=
  { c6DoneJob with status := "cancelled", completed_at := some "2025-02-05T00:00:00" }

/-- Two fixture broadcast messages. -/
def c7m1 : BroadcastMessage := { msgType := "job_update", job_id := "job-1" }

/-- A second fixture broadcast message. -/
def c7m2 : BroadcastMessage := { msgType := "job_update", job_id := "job-2" }

/-- A run whose export stage raises a non-DISM exception. -/
def c3Env : WorkflowEnv :=
  { hasSbi := true, prepareWim := .ok (), mountWim := .ok (), windowsDirExists := true
    driverCount := 0, driverIntegrationOk := true, driverSuccessCount := 0, driverFailedCount := 0
    updateCount := 0, updateIntegrationOk := true, updateSuccessCount := 0, updateFailedCount := 0
    exportWim := .error (.other "disk full"), cleanupWim := .ok ()
    emergencyCleanupFails := false }

/-- A run whose export stage raises a DismError. -/
def c3EnvDism : WorkflowEnv :=
  { c3Env with exportWim := .error (.dism "export failed with code 5") }

/-- A fully successful run with one driver and no updates. -/
def c8Env : WorkflowEnv :=
  { hasSbi := true, prepareWim := .ok (), mountWim := .ok (), windowsDirExists := true
    driverCount := 1, driverIntegrationOk := true, driverSuccessCount := 1, driverFailedCount := 0
    updateCount := 0, updateIntegrationOk := true, updateSuccessCount := 0, updateFailedCount := 0
    exportWim := .ok (), cleanupWim := .ok (), emergencyCleanupFails := false }

/-- A fixture build request record. -/
def c9Data : JobData :=
  { id := "7f2c9a", device := "xX-39A", os_id := 10, status := "created"
    progress := 0, current_step := some "Initializing", step_number := 0
    total_steps := 9, created_at := "2025-02-03T08:00:00", started_at := none
    completed_at := none, error := none
    results := [("source", .jstr "webui")], user_id := "web_user"
    skip_drivers := true, skip_updates := false, skip_validation := true
    created_by := "webui" }

/-! ## Helper lemmas on the integration loops -/

namespace UpdateIntegration

/-- The result produced for one update does not depend on the statistics
threaded through the integrator. -/
theorem singleResult_stats_free (s : IntegrationStats) (u : UpdateAsset) (env : UpdateEnv) :
    (integrateSingleUpdateSt s u env).2 = (integrateSingleUpdateSt initStats u env).2 := by
  unfold integrateSingleUpdateSt
  cases u.update_type <;> rfl

/-- The statistics bump inside the single-update call touches only the
per-type counters: failed is unchanged. -/
theorem singleStats_failed (s : IntegrationStats) (u : UpdateAsset) (env : UpdateEnv) :
    (integrateSingleUpdateSt s u env).1.failed = s.failed := by
  unfold integrateSingleUpdateSt
  cases u.update_type <;> dsimp only <;> split <;> rfl

/-- The statistics bump inside the single-update call leaves the cumulative
size untouched. -/
theorem singleStats_size (s : IntegrationStats) (u : UpdateAsset) (env : UpdateEnv) :
    (integrateSingleUpdateSt s u env).1.total_size_added = s.total_size_added := by
  unfold integrateSingleUpdateSt
  cases u.update_type <;> dsimp only <;> split <;> rfl

/-- The module never imports os, so the mount-size helper dies with a
NameError that its catch-all converts to 0, whatever the tree holds. -/
theorem getMountSize_eq_zero (fs : List Nat) : getMountSize fs = 0 := by
  unfold getMountSize getMountSizeBody
  rw [if_neg (by decide)]

/-- The DISM path never sets size_added itself. -/
theorem integrateDismUpdate_size (u : UpdateAsset) (env : UpdateEnv) :
    (integrateDismUpdate u env).size_added = none := by
  unfold integrateDismUpdate
  split
  · rfl
  · split
    · rfl
    · split <;> first | rfl | (split <;> first | rfl | (split <;> first | rfl | (split <;> rfl)))

/-- The staging path never sets size_added. -/
theorem stageUpdateToYunona_size (u : UpdateAsset) (env : UpdateEnv) :
    (stageUpdateToYunona u env).size_added = none := by
  unfold stageUpdateToYunona
  split
  · rfl
  · split <;> rfl

/-- Every result leaving the single-update call carries size_added none or
some 0: the before/after mount sizes are both 0. -/
theorem singleResult_size (s : IntegrationStats) (u : UpdateAsset) (env : UpdateEnv) :
    (integrateSingleUpdateSt s u env).2.size_added = none ∨
      (integrateSingleUpdateSt s u env).2.size_added = some 0 := by
  unfold integrateSingleUpdateSt
  cases u.update_type <;> dsimp only
  case msu | cab =>
    split
    · right
      simp [getMountSize_eq_zero]
    · left
      exact integrateDismUpdate_size u env
  case exe | msi =>
    left
    exact stageUpdateToYunona_size u env

/-- A successful immediate-path result carries size_added = some 0. -/
theorem singleResult_size_dism (s : IntegrationStats) (u : UpdateAsset) (env : UpdateEnv)
    (hty : u.update_type = .msu ∨ u.update_type = .cab)
    (hs : (integrateSingleUpdateSt s u env).2.success = true) :
    (integrateSingleUpdateSt s u env).2.size_added = some 0 := by
  rcases hty with h | h <;>
  · unfold integrateSingleUpdateSt at hs ⊢
    rw [h] at hs ⊢
    dsimp only at hs ⊢
    by_cases hsucc : (integrateDismUpdate u env).success = true
    · rw [if_pos hsucc]
      simp [getMountSize_eq_zero]
    · rw [if_neg hsucc] at hs
      exact absurd hs hsucc

/-- One loop iteration appends exactly one result. -/
theorem updateLoopStep_length (acc : IntegrationStats × List UpdateIntegrationResult)
    (p : UpdateAsset × UpdateEnv) :
    (updateLoopStep acc p).2.length = acc.2.length + 1 := by
  unfold updateLoopStep
  cases p.2.unexpected <;> simp

/-- The loop yields one result per processed asset. -/
theorem updateLoop_length (l : List (UpdateAsset × UpdateEnv)) :
    ∀ acc : IntegrationStats × List UpdateIntegrationResult,
      (l.foldl updateLoopStep acc).2.length = acc.2.length + l.length := by
  induction l with
  | nil => intro acc; simp
  | cons p t ih =>
      intro acc
      rw [List.foldl_cons, ih (updateLoopStep acc p), updateLoopStep_length,
        List.length_cons]
      omega

/-- One loop iteration bumps failed exactly when the step fails. -/
theorem updateLoopStep_failed (acc : IntegrationStats × List UpdateIntegrationResult)
    (p : UpdateAsset × UpdateEnv) :
    (updateLoopStep acc p).1.failed =
      acc.1.failed + (if updStepFails p then 1 else 0) := by
  unfold updateLoopStep updStepFails
  cases hu : p.2.unexpected with
  | some m => simp [hu]
  | none =>
      dsimp only
      rw [singleResult_stats_free acc.1 p.1 p.2]
      cases hs : (integrateSingleUpdateSt initStats p.1 p.2).2.success <;>
        simp [hs, hu, singleStats_failed]

/-- Failed count after the loop equals the starting count plus the number of
failing steps. -/
theorem updateLoop_failed (l : List (UpdateAsset × UpdateEnv)) :
    ∀ acc : IntegrationStats × List UpdateIntegrationResult,
      (l.foldl updateLoopStep acc).1.failed = acc.1.failed + l.countP updStepFails := by
  induction l with
  | nil => intro acc; simp
  | cons p t ih =>
      intro acc
      rw [List.foldl_cons, ih (updateLoopStep acc p), updateLoopStep_failed,
        List.countP_cons]
      split <;> omega

/-- One loop iteration never changes the cumulative size: successful
immediate results contribute a (truthiness-guarded) zero and everything
else contributes nothing. -/
theorem updateLoopStep_size (acc : IntegrationStats × List UpdateIntegrationResult)
    (p : UpdateAsset × UpdateEnv) :
    (updateLoopStep acc p).1.total_size_added = acc.1.total_size_added := by
  unfold updateLoopStep
  cases hu : p.2.unexpected with
  | some m => rfl
  | none =>
      dsimp only
      split
      · rcases singleResult_size acc.1 p.1 p.2 with h | h <;>
          simp [h, singleStats_size]
      · simp [singleStats_size]

/-- The cumulative size is invariant across the whole loop. -/
theorem updateLoop_size (l : List (UpdateAsset × UpdateEnv)) :
    ∀ acc : IntegrationStats × List UpdateIntegrationResult,
      (l.foldl updateLoopStep acc).1.total_size_added = acc.1.total_size_added := by
  induction l with
  | nil => intro acc; simp
  | cons p t ih =>
      intro acc
      rw [List.foldl_cons, ih (updateLoopStep acc p), updateLoopStep_size]

/-- Sorting the work list permutes it. -/
theorem sortUpdates_perm (l : List (UpdateAsset × UpdateEnv)) : (sortUpdates l).Perm l :=
  List.perm_insertionSort _ l

end UpdateIntegration

namespace DriverIntegration

/-- The result produced for one driver does not depend on the statistics
threaded through the integrator. -/
theorem singleDriverResult_stats_free (s : DriverStats) (d : DriverAsset) (env : DriverEnv) :
    (integrateSingleDriverSt s d env).2 = (integrateSingleDriverSt initDriverStats d env).2 := by
  unfold integrateSingleDriverSt
  cases d.driver_type <;> rfl

/-- The statistics bump inside the single-driver call leaves failed
unchanged. -/
theorem singleDriverStats_failed (s : DriverStats) (d : DriverAsset) (env : DriverEnv) :
    (integrateSingleDriverSt s d env).1.failed = s.failed := by
  unfold integrateSingleDriverSt
  cases d.driver_type <;> dsimp only <;> split <;> rfl

/-- One loop iteration appends exactly one result. -/
theorem driverLoopStep_length (acc : DriverStats × List DriverIntegrationResult)
    (p : DriverAsset × DriverEnv) :
    (driverLoopStep acc p).2.length = acc.2.length + 1 := by
  unfold driverLoopStep
  cases p.2.unexpected <;> simp

/-- The loop yields one result per processed driver. -/
theorem driverLoop_length (l : List (DriverAsset × DriverEnv)) :
    ∀ acc : DriverStats × List DriverIntegrationResult,
      (l.foldl driverLoopStep acc).2.length = acc.2.length + l.length := by
  induction l with
  | nil => intro acc; simp
  | cons p t ih =>
      intro acc
      rw [List.foldl_cons, ih (driverLoopStep acc p), driverLoopStep_length,
        List.length_cons]
      omega

/-- One loop iteration bumps failed exactly when the step fails. -/
theorem driverLoopStep_failed (acc : DriverStats × List DriverIntegrationResult)
    (p : DriverAsset × DriverEnv) :
    (driverLoopStep acc p).1.failed =
      acc.1.failed + (if drvStepFails p then 1 else 0) := by
  unfold driverLoopStep drvStepFails
  cases hu : p.2.unexpected with
  | some m => simp [hu]
  | none =>
      dsimp only
      rw [singleDriverResult_stats_free acc.1 p.1 p.2]
      cases hs : (integrateSingleDriverSt initDriverStats p.1 p.2).2.success <;>
        simp [hs, hu, singleDriverStats_failed]

/-- Failed count after the loop equals the starting count plus the number of
failing steps. -/
theorem driverLoop_failed (l : List (DriverAsset × DriverEnv)) :
    ∀ acc : DriverStats × List DriverIntegrationResult,
      (l.foldl driverLoopStep acc).1.failed = acc.1.failed + l.countP drvStepFails := by
  induction l with
  | nil => intro acc; simp
  | cons p t ih =>
      intro acc
      rw [List.foldl_cons, ih (driverLoopStep acc p), driverLoopStep_failed,
        List.countP_cons]
      split <;> omega

/-- Sorting the work list permutes it. -/
theorem sortDrivers_perm (l : List (DriverAsset × DriverEnv)) : (sortDrivers l).Perm l :=
  List.perm_insertionSort _ l

end DriverIntegration

end Kassia

open Kassia
open Kassia.UpdateIntegration
open Kassia.DriverIntegration

/-! ## Claim C1 -/

/-- C1 counterexample: an immediate-strategy update whose DISM call exits 1
with output containing "not applicable" yields an IntegrationResult with
succeeded = false (message: not applicable), where the claim requires a
non-fatal success (succeeded = true). -/
theorem C1_counterexample :
    (integrateDismUpdate c1UpdateAsset c1EnvNotApplicable).success = false ∧
    (integrateDismUpdate c1UpdateAsset c1EnvNotApplicable).message = .notApplicable := by
  decide

/-- C1 (amended): for updates (_integrate_dism_update), a non-zero DISM exit
is classified by output text, checking "not applicable" first: such output
yields succeeded = false with the fixed not-applicable message; otherwise
output containing "already installed" yields the only non-fatal success
(succeeded = true); any other non-zero exit yields succeeded = false with
the first 200 characters of the stderr text in the message.  For drivers
(_integrate_inf_driver) there is no no-op classification at all: every
non-zero exit yields succeeded = false with the full stderr text in the
message. -/
theorem C1_amended_nonzero_exit_classification
    (u : UpdateAsset) (env : UpdateEnv) (rc : Int) (out err : String)
    (hex : env.fileExists = true) (hsz : env.fileSize ≠ 0)
    (hd : env.dism = .completes rc out err) (hrc : rc ≠ 0)
    (d : DriverAsset) (denv : DriverEnv) (rc2 : Int) (out2 err2 : String)
    (hinf : denv.infFileCount ≠ 0) (hd2 : denv.dism = .completes rc2 out2 err2)
    (hrc2 : rc2 ≠ 0) :
    (((strContainsLower err "not applicable" || strContainsLower out "not applicable") = true →
        (integrateDismUpdate u env).success = false ∧
        (integrateDismUpdate u env).message = .notApplicable) ∧
     ((strContainsLower err "not applicable" || strContainsLower out "not applicable") = false →
      (strContainsLower err "already installed" || strContainsLower out "already installed") = true →
        (integrateDismUpdate u env).success = true ∧
        (integrateDismUpdate u env).message = .alreadyInstalled) ∧
     ((strContainsLower err "not applicable" || strContainsLower out "not applicable") = false →
      (strContainsLower err "already installed" || strContainsLower out "already installed") = false →
        (integrateDismUpdate u env).success = false ∧
        (integrateDismUpdate u env).message = .dismFailed rc (strTake err 200))) ∧
    ((integrateInfDriver d denv).success = false ∧
     (integrateInfDriver d denv).message = .dismFailed rc2 err2) := by
  constructor
  · refine ⟨?_, ?_, ?_⟩
    · intro h1
      simp [integrateDismUpdate, hex, hsz, hd, hrc, h1]
    · intro h1 h2
      simp [integrateDismUpdate, hex, hsz, hd, hrc, h1, h2]
    · intro h1 h2
      simp [integrateDismUpdate, hex, hsz, hd, hrc, h1, h2]
  · constructor
    · simp [integrateInfDriver, hinf, hd2, hrc2]
    · simp [integrateInfDriver, hinf, hd2, hrc2]

/-- C1 witness: the amended classification applied to the already-installed
update fixture and the failing driver fixture. -/
theorem C1_amended_witness :
    (integrateDismUpdate c1UpdateAsset c1EnvAlready).success = true ∧
    (integrateInfDriver c1Driver c1DrvEnv).success = false := by
  have h := C1_amended_nonzero_exit_classification c1UpdateAsset c1EnvAlready 1
    "The package is already installed on this image." "" rfl (by decide) rfl (by decide)
    c1Driver c1DrvEnv 3 "" "Error 3 adding driver package" (by decide) rfl (by decide)
  exact ⟨(h.1.2.1 (by decide) (by decide)).1, h.2.1⟩

/-! ## Claim C2 -/

/-- C2: both integration loops are best-effort: the returned result list has
exactly one IntegrationResult per input asset regardless of per-asset
failures or exceptions, the aggregate failed count equals the number of
failing assets, and with exactly one engineered failure the aggregate
reports failedCount = 1. -/
theorem C2_partial_failure_invariant
    (l : List (UpdateAsset × UpdateEnv)) (dl : List (DriverAsset × DriverEnv))
    (s0 : IntegrationStats) (ds0 : DriverStats)
    (hs : s0.failed = 0) (hds : ds0.failed = 0)
    (ey : Except String Unit) (hey : ey = .ok ()) :
    (∃ st rs, integrateUpdates true true s0 l = .ok (st, rs) ∧
        rs.length = l.length ∧ st.failed = l.countP updStepFails ∧
        (l.countP updStepFails = 1 → st.failed = 1)) ∧
    (∃ st rs, integrateDrivers true true ey ds0 dl = .ok (st, rs) ∧
        rs.length = dl.length ∧ st.failed = dl.countP drvStepFails ∧
        (dl.countP drvStepFails = 1 → st.failed = 1)) := by
  constructor
  · have hperm := sortUpdates_perm l
    have hlen := updateLoop_length (sortUpdates l) ({ s0 with total := l.length }, [])
    have hfail := updateLoop_failed (sortUpdates l) ({ s0 with total := l.length }, [])
    refine ⟨((sortUpdates l).foldl updateLoopStep ({ s0 with total := l.length }, [])).1,
           ((sortUpdates l).foldl updateLoopStep ({ s0 with total := l.length }, [])).2,
           ?_, ?_, ?_, ?_⟩
    · unfold integrateUpdates
      simp
    · rw [hlen]
      simp [hperm.length_eq]
    · rw [hfail]
      have : ({ s0 with total := l.length } : IntegrationStats).failed = 0 := hs
      rw [this, List.Perm.countP_eq updStepFails hperm]
      omega
    · intro h1
      rw [hfail]
      have : ({ s0 with total := l.length } : IntegrationStats).failed = 0 := hs
      rw [this, List.Perm.countP_eq updStepFails hperm, h1]
  · subst hey
    have hperm := sortDrivers_perm dl
    have hlen := driverLoop_length (sortDrivers dl) ({ ds0 with total := dl.length }, [])
    have hfail := driverLoop_failed (sortDrivers dl) ({ ds0 with total := dl.length }, [])
    refine ⟨((sortDrivers dl).foldl driverLoopStep ({ ds0 with total := dl.length }, [])).1,
           ((sortDrivers dl).foldl driverLoopStep ({ ds0 with total := dl.length }, [])).2,
           ?_, ?_, ?_, ?_⟩
    · unfold integrateDrivers
      simp
    · rw [hlen]
      simp [hperm.length_eq]
    · rw [hfail]
      have : ({ ds0 with total := dl.length } : DriverStats).failed = 0 := hds
      rw [this, List.Perm.countP_eq drvStepFails hperm]
      omega
    · intro h1
      rw [hfail]
      have : ({ ds0 with total := dl.length } : DriverStats).failed = 0 := hds
      rw [this, List.Perm.countP_eq drvStepFails hperm, h1]

/-- C2 witness: two updates with the second failing and two drivers with the
second raising still produce one result each and failedCount = 1. -/
theorem C2_partial_failure_witness :
    (∃ st rs, integrateUpdates true true initStats [c2UpdOk, c2UpdBad] = .ok (st, rs) ∧
        rs.length = [c2UpdOk, c2UpdBad].length ∧
        st.failed = [c2UpdOk, c2UpdBad].countP updStepFails ∧
        ([c2UpdOk, c2UpdBad].countP updStepFails = 1 → st.failed = 1)) ∧
    (∃ st rs, integrateDrivers true true (.ok ()) initDriverStats [c2DrvOk, c2DrvBad] = .ok (st, rs) ∧
        rs.length = [c2DrvOk, c2DrvBad].length ∧
        st.failed = [c2DrvOk, c2DrvBad].countP drvStepFails ∧
        ([c2DrvOk, c2DrvBad].countP drvStepFails = 1 → st.failed = 1)) :=
  C2_partial_failure_invariant [c2UpdOk, c2UpdBad] [c2DrvOk, c2DrvBad]
    initStats initDriverStats rfl rfl (.ok ()) rfl

/-! ## Claim C10 -/

/-- C10: the mount-size helper references the never-imported name os, so it
always returns 0 through its catch-all; hence every successfully integrated
immediate-path (MSU/CAB) update reports size_added = exactly 0, and the
aggregate total_size_added stays 0 over any run of integrate_updates started
from fresh statistics. -/
theorem C10_mount_size_dead_code
    (fs : List Nat) (s : IntegrationStats) (u : UpdateAsset) (env : UpdateEnv)
    (hty : u.update_type = .msu ∨ u.update_type = .cab)
    (hs : (integrateSingleUpdateSt s u env).2.success = true)
    (s0 : IntegrationStats) (h0 : s0.total_size_added = 0)
    (l : List (UpdateAsset × UpdateEnv)) :
    getMountSize fs = 0 ∧
    (integrateSingleUpdateSt s u env).2.size_added = some 0 ∧
    (∃ st rs, integrateUpdates true true s0 l = .ok (st, rs) ∧ st.total_size_added = 0) := by
  refine ⟨getMountSize_eq_zero fs, singleResult_size_dism s u env hty hs, ?_⟩
  have hsz := updateLoop_size (sortUpdates l) ({ s0 with total := l.length }, [])
  refine ⟨((sortUpdates l).foldl updateLoopStep ({ s0 with total := l.length }, [])).1,
         ((sortUpdates l).foldl updateLoopStep ({ s0 with total := l.length }, [])).2,
         ?_, ?_⟩
  · unfold integrateUpdates
    simp
  · rw [hsz]
    exact h0

/-- C10 witness: the dead mount-size helper and the zero size report on a
successful immediate integration over a non-empty model filesystem. -/
theorem C10_mount_size_dead_code_witness :
    getMountSize [7, 9] = 0 ∧
    (integrateSingleUpdateSt initStats c10Upd.1 c10Upd.2).2.size_added = some 0 ∧
    (∃ st rs, integrateUpdates true true initStats [c10Upd] = .ok (st, rs) ∧
        st.total_size_added = 0) :=
  C10_mount_size_dead_code [7, 9] initStats c10Upd.1 c10Upd.2 (.inl rfl) (by decide)
    initStats rfl [c10Upd]

/-! ## Claim C5 -/

open Kassia.LocalProvider

/-- C5 counterexample: a driver restricted to device id 42 is kept by
get_drivers for a device whose declared supported device ids are [1]
(device-id metadata disjoint from the device), while the resolve predicate
of the claim — modelled by specResolveDrivers — excludes it.  The code never
consults supportedDevices, so the claimed iff fails at this input. -/
theorem C5_counterexample :
    getDrivers [c5cfgD] "X1" 10 = [c5assetD] ∧
    specResolveDrivers [c5cfgD] [1] 10 = [] ∧
    c5assetD.supported_devices = [42] := by
  decide

/-- C5 (amended): get_drivers keeps a catalog entry iff its config parses,
its supportedOperatingSystems is empty or contains the requested OS id, and
its directory contains at least one file of the detected driver type; the
device argument is never consulted (no device filtering), survivors are
ordered by ascending installOrder, and the concrete catalog of the claim
yields exactly [B, A] with C excluded. -/
theorem C5_amended_resolution :
    (∀ c dev os, (loadDriverFromConfig c dev os).isSome ↔
        (c.parseOk = true ∧
         (c.supportedOperatingSystems = [] ∨ os ∈ c.supportedOperatingSystems) ∧
         findDriverFilesCount c (detectDriverType c) ≠ 0)) ∧
    (∀ c dev dev2 os, loadDriverFromConfig c dev os = loadDriverFromConfig c dev2 os) ∧
    (∀ catalog dev os,
        (getDrivers catalog dev os).Pairwise (fun a b => a.order ≤ b.order)) ∧
    getDrivers [c5cfgA, c5cfgB, c5cfgC] "X1" 10 = [c5assetB, c5assetA] := by
  refine ⟨?_, ?_, ?_, ?_⟩
  · intro c dev os
    unfold loadDriverFromConfig
    split_ifs with h1 h2 <;> simp_all <;> tauto
  · intro c dev dev2 os
    rfl
  · intro catalog dev os
    exact List.sorted_insertionSort _ _
  · decide

/-- C5 witness: the compatibility characterisation instantiated at catalog
entry C (excluded for OS 10). -/
theorem C5_amended_witness :
    (loadDriverFromConfig c5cfgC "X1" 10).isSome ↔
      (c5cfgC.parseOk = true ∧
       (c5cfgC.supportedOperatingSystems = [] ∨ (10 : Int) ∈ c5cfgC.supportedOperatingSystems) ∧
       findDriverFilesCount c5cfgC (detectDriverType c5cfgC) ≠ 0) :=
  C5_amended_resolution.1 c5cfgC "X1" 10

/-! ## Claims C4, C6, C7: JobStatus -/

open Kassia.JobDb
open Kassia.WebApp

/-- A permutation preserves the any predicate. -/
theorem any_of_perm {α : Type} (p : α → Bool) {l₁ l₂ : List α} (h : l₁.Perm l₂) :
    l₁.any p = l₂.any p := by
  cases h12 : l₂.any p
  · rw [List.any_eq_false] at h12 ⊢
    intro x hx
    exact h12 x (h.mem_iff.mp hx)
  · rw [List.any_eq_true] at h12 ⊢
    obtain ⟨x, hx, hpx⟩ := h12
    exact ⟨x, h.mem_iff.mpr hx, hpx⟩

/-- Reconciling preserves the job id. -/
theorem markInterrupted_id (now : String) (j : JobRow) : (markInterrupted now j).id = j.id := rfl

/-- The reconciliation loop, characterised elementwise: a row ends up marked
iff some snapshot entry is a running job with its id (marking is idempotent,
so multiplicity does not matter). -/
theorem reconcile_fold_char (snapshot : List JobRow) (now : String) :
    ∀ db : List JobRow,
      snapshot.foldl
        (fun acc j => if j.status = "running" then dbUpdateRows acc j.id (markInterrupted now) else acc)
        db
      = db.map (fun j =>
          if snapshot.any (fun s => s.status == "running" && s.id == j.id) then
            markInterrupted now j
          else j) := by
  induction snapshot with
  | nil =>
      intro db
      simp
  | cons s t ih =>
      intro db
      rw [List.foldl_cons]
      by_cases hs : s.status = "running"
      · rw [if_pos hs, ih (dbUpdateRows db s.id (markInterrupted now))]
        unfold dbUpdateRows
        rw [List.map_map]
        apply List.map_congr_left
        intro j _
        by_cases hid : j.id = s.id
        · simp only [Function.comp, if_pos hid]
          have hmid : (markInterrupted now j).id = j.id := rfl
          by_cases ht : t.any (fun x => x.status == "running" && x.id == j.id)
          · rw [if_pos (by rw [hmid]; exact ht)]
            rw [if_pos (by simp [List.any_cons, hs, hid])]
            rfl
          · rw [if_neg (by rw [hmid]; simp [ht])]
            rw [if_pos (by simp [List.any_cons, hs, hid])]
        · simp only [Function.comp, if_neg hid]
          have hmatch : (s.status == "running" && s.id == j.id) = false := by
            simp [hs]
            intro hcon
            exact absurd hcon.symm hid
          rw [List.any_cons, hmatch]
          simp
      · rw [if_neg hs, ih db]
        apply List.map_congr_left
        intro j _
        have hmatch : (s.status == "running" && s.id == j.id) = false := by
          simp [hs]
        rw [List.any_cons, hmatch]
        simp

/-- The startup snapshot permutes the table when at most 100 rows exist. -/
theorem getAllJobs_perm (db : List JobRow) (h : db.length ≤ 100) :
    (getAllJobs db).Perm db := by
  unfold getAllJobs
  rw [List.take_of_length_le]
  · exact List.perm_insertionSort _ db
  · rw [List.length_insertionSort]
    exact h

/-- C4 counterexample: the error string written by the startup
reconciliation is the fixed text Application restart during execution, not
the reserved reason the claim states. -/
theorem C4_counterexample :
    (reconcileStartup [c4RunningJob] "2025-02-03T09:00:00").map (fun j => j.error) =
      [some "Application restart during execution"] ∧
    (some "Application restart during execution" : Option String) ≠
      some "interrupted by restart" := by
  decide

/-- C4 (amended): at startup, every job in the reconciliation snapshot
(get_all_jobs returns at most the 100 newest rows; the hypothesis keeps the
whole table inside it) whose persisted status is running is set to failed
with the fixed error string Application restart during execution and a
completion timestamp, and jobs in any other status are left unchanged. -/
theorem C4_amended_startup_reconciliation (db : List JobRow) (now : String)
    (hnodup : (db.map JobRow.id).Nodup) (hlen : db.length ≤ 100) :
    reconcileStartup db now =
      db.map (fun j => if j.status = "running" then markInterrupted now j else j) := by
  unfold reconcileStartup
  rw [reconcile_fold_char]
  apply List.map_congr_left
  intro j hj
  have hperm := getAllJobs_perm db hlen
  rw [any_of_perm _ hperm]
  by_cases hr : j.status = "running"
  · rw [if_pos hr, if_pos ?side]
    case side =>
      rw [List.any_eq_true]
      exact ⟨j, hj, by simp [hr]⟩
  · rw [if_neg hr, if_neg ?side2]
    case side2 =>
      intro hcon
      rw [List.any_eq_true] at hcon
      obtain ⟨s, hsdb, hp⟩ := hcon
      have hp2 : s.status = "running" ∧ s.id = j.id := by simpa using hp
      have : s = j := List.inj_on_of_nodup_map hnodup hsdb hj hp2.2
      exact hr (this ▸ hp2.1)

/-- C4 witness: the amended reconciliation applied to a one-row table
holding a running job. -/
theorem C4_amended_witness :
    reconcileStartup [c4RunningJob] "2025-02-03T09:00:00" =
      [c4RunningJob].map
        (fun j => if j.status = "running" then markInterrupted "2025-02-03T09:00:00" j else j) :=
  C4_amended_startup_reconciliation [c4RunningJob] "2025-02-03T09:00:00"
    (by decide) (by decide)

/-- C6 counterexample: cancel_job applied to a job already completed
(a terminal state) overwrites its status with cancelled and returns true,
where the claim requires it to be rejected (false, job unchanged). -/
theorem C6_counterexample :
    cancelJob [c6DoneJob] "job-9" "2025-02-05T00:00:00" = ([c6OverwrittenJob], true) ∧
    c6DoneJob.status = "completed" := by
  decide

/-- C6 (amended): cancel_job performs no terminal-state check: it reports
true whenever the store update succeeds, every row with the requested id —
whatever its current status, terminal included — is overwritten to status
cancelled with a completion timestamp, and rows with other ids are left in
place. -/
theorem C6_amended_cancel_unguarded (db : List JobRow) (id now : String) :
    (cancelJob db id now).2 = true ∧
    (∀ j ∈ db, j.id = id → cancelUpdates now j ∈ (cancelJob db id now).1) ∧
    (∀ j ∈ db, j.id ≠ id → j ∈ (cancelJob db id now).1) := by
  refine ⟨rfl, ?_, ?_⟩
  · intro j hj hid
    exact List.mem_map.mpr ⟨j, hj, by rw [if_pos hid]⟩
  · intro j hj hid
    exact List.mem_map.mpr ⟨j, hj, by rw [if_neg hid]⟩

/-- C6 witness: cancelling the completed fixture job succeeds and rewrites
its row. -/
theorem C6_amended_cancel_witness :
    (cancelJob [c6DoneJob] "job-9" "2025-02-05T00:00:00").2 = true ∧
    cancelUpdates "2025-02-05T00:00:00" c6DoneJob ∈
      (cancelJob [c6DoneJob] "job-9" "2025-02-05T00:00:00").1 :=
  ⟨(C6_amended_cancel_unguarded [c6DoneJob] "job-9" "2025-02-05T00:00:00").1,
   (C6_amended_cancel_unguarded [c6DoneJob] "job-9" "2025-02-05T00:00:00").2.1
     c6DoneJob (by simp) rfl⟩

/-- C7 counterexample: the broadcast queue is created with maxsize 0, i.e.
unbounded, not bounded as claimed; and the enqueue policy on a (hypothetical)
full queue keeps the pending message and drops the new one — the opposite of
dropping the oldest. -/
theorem C7_counterexample :
    newBroadcastQueue.maxsize = 0 ∧
    putNowaitCaught { maxsize := 1, items := [c7m1] } c7m2 =
      ({ maxsize := 1, items := [c7m1] }, false) := by
  decide

/-- C7 (amended): the Broadcaster queue is created unbounded (asyncio.Queue
with maxsize 0), so the non-blocking put_nowait always appends and the
producer never blocks; when an enqueue is refused (possible only for a
bounded queue), the queue is left unchanged: the new message is dropped,
never the oldest pending one. -/
theorem C7_amended_broadcast_queue (q : BQueue) (m : BroadcastMessage) :
    (q.maxsize = 0 → putNowaitCaught q m = ({ q with items := q.items ++ [m] }, true)) ∧
    ((putNowaitCaught q m).2 = false → (putNowaitCaught q m).1 = q) ∧
    newBroadcastQueue.maxsize = 0 := by
  refine ⟨?_, ?_, rfl⟩
  · intro h
    unfold putNowaitCaught
    rw [if_pos (Or.inl h)]
  · intro h
    unfold putNowaitCaught at h ⊢
    by_cases hc : q.maxsize = 0 ∨ q.items.length < q.maxsize
    · rw [if_pos hc] at h
      exact absurd h (by simp)
    · rw [if_neg hc]

/-- C7 witness: enqueueing on the freshly created queue always succeeds. -/
theorem C7_amended_broadcast_queue_witness :
    putNowaitCaught newBroadcastQueue c7m1 =
      ({ newBroadcastQueue with items := newBroadcastQueue.items ++ [c7m1] }, true) :=
  (C7_amended_broadcast_queue newBroadcastQueue c7m1).1 rfl

/-! ## Claim C9 -/

/-- C9: a job record accepted by create_job reads back through get_job with
every field equal to what was written: all scalar columns verbatim, the
results blob through the dumps/loads round trip, and the three boolean
flags as the integers sqlite stores for them, which compare equal to the
written booleans under Python equality (pyEqBool). -/
theorem C9_roundtrip (db : List JobRow) (d : JobData)
    (h : (createJob db d).2 = true) :
    ∃ out, getJob (createJob db d).1 d.id = some out ∧
      out.id = d.id ∧ out.device = d.device ∧ out.os_id = d.os_id ∧
      out.status = d.status ∧ out.progress = d.progress ∧
      out.current_step = d.current_step ∧ out.step_number = d.step_number ∧
      out.total_steps = d.total_steps ∧ out.created_at = d.created_at ∧
      out.started_at = d.started_at ∧ out.completed_at = d.completed_at ∧
      out.error = d.error ∧ out.results = d.results ∧ out.user_id = d.user_id ∧
      pyEqBool d.skip_drivers out.skip_drivers ∧
      pyEqBool d.skip_updates out.skip_updates ∧
      pyEqBool d.skip_validation out.skip_validation ∧
      out.created_by = d.created_by := by
  by_cases hc : db.any (fun j => j.id == d.id)
  · unfold createJob at h
    rw [if_pos hc] at h
    exact absurd h (by simp)
  · refine ⟨dictOfRow (rowOfData d), ?_, rfl, rfl, rfl, rfl, rfl, rfl, rfl, rfl,
      rfl, rfl, rfl, rfl, rfl, rfl, rfl, rfl, rfl, rfl⟩
    unfold createJob getJob
    rw [if_neg hc, List.find?_append]
    have h1 : db.find? (fun j => j.id == d.id) = none := by
      rw [List.find?_eq_none]
      intro x hx
      rw [Bool.not_eq_true]
      rcases Bool.eq_false_or_eq_true (x.id == d.id) with ht | hf
      · exact absurd (List.any_eq_true.mpr ⟨x, hx, ht⟩) hc
      · exact hf
    rw [h1]
    have h2 : ((rowOfData d).id == d.id) = true := by
      simp [rowOfData]
    simp [List.find?, h2]

/-! ## Claims C3 and C8: the workflow -/

open Kassia.Workflow

/-- After a handler runs, the job view holds status failed and the handler
message, whatever came before. -/
theorem finalView_handleExc (tr : List JobUpdateCall) (e : WfExc) :
    finalView (handleExc tr e) =
      { status := some "failed"
        error := some (match e with
          | .dism m => "DISM Error in REAL workflow: " ++ m
          | .other m => "Unexpected error in REAL workflow: " ++ m) } := by
  cases e <;>
  · unfold finalView handleExc
    rw [List.foldl_append]
    rfl

/-- The handler records the exception it caught. -/
theorem handleExc_caught (tr : List JobUpdateCall) (e : WfExc) :
    (handleExc tr e).caught = some e := by
  cases e <;> rfl

/-- Every workflow exit either caught nothing (and attempted no emergency
cleanup) or went through one of the two handlers. -/
theorem runWorkflow_exit (env : WorkflowEnv) (sd su : Bool) :
    ((runWorkflow env sd su).caught = none ∧
     (runWorkflow env sd su).emergencyCleanupAttempted = false) ∨
    ∃ tr e, runWorkflow env sd su = handleExc tr e := by
  unfold runWorkflow
  split
  · left
    exact ⟨rfl, rfl⟩
  · split
    · right
      exact ⟨_, _, rfl⟩
    · split
      · right
        exact ⟨_, _, rfl⟩
      · split
        · right
          exact ⟨_, _, rfl⟩
        · split
          · right
            exact ⟨_, _, rfl⟩
          · split
            · right
              exact ⟨_, _, rfl⟩
            · left
              exact ⟨rfl, rfl⟩

/-- C3 (amended): only DismError exceptions trigger the emergency-cleanup
attempt before the job surfaces as failed; any other unexpected exception
transitions the job to failed with no cleanup attempt.  In both paths the
job error embeds the original exception message verbatim inside a fixed
prefix, and a failing emergency cleanup never alters the outcome: the run is
identical whether the cleanup succeeds or fails. -/
theorem C3_amended_exception_handling (env : WorkflowEnv) (sd su : Bool) (m : String) :
    ((runWorkflow env sd su).caught = some (.dism m) →
        (runWorkflow env sd su).emergencyCleanupAttempted = true ∧
        finalView (runWorkflow env sd su) =
          { status := some "failed"
            error := some ("DISM Error in REAL workflow: " ++ m) }) ∧
    ((runWorkflow env sd su).caught = some (.other m) →
        (runWorkflow env sd su).emergencyCleanupAttempted = false ∧
        finalView (runWorkflow env sd su) =
          { status := some "failed"
            error := some ("Unexpected error in REAL workflow: " ++ m) }) ∧
    runWorkflow { env with emergencyCleanupFails := true } sd su =
      runWorkflow { env with emergencyCleanupFails := false } sd su := by
  refine ⟨?_, ?_, ?_⟩
  · intro h
    rcases runWorkflow_exit env sd su with ⟨hn, _⟩ | ⟨tr, e, heq⟩
    · rw [hn] at h
      cases h
    · rw [heq] at h ⊢
      rw [handleExc_caught] at h
      injection h with h1
      subst h1
      exact ⟨rfl, finalView_handleExc tr (.dism m)⟩
  · intro h
    rcases runWorkflow_exit env sd su with ⟨hn, _⟩ | ⟨tr, e, heq⟩
    · rw [hn] at h
      cases h
    · rw [heq] at h ⊢
      rw [handleExc_caught] at h
      injection h with h1
      subst h1
      exact ⟨rfl, finalView_handleExc tr (.other m)⟩
  · cases env
    rfl

/-- C3 counterexample: an unexpected (non-DISM) exception in the export
stage surfaces the job as failed without any emergency-cleanup attempt, and
the persisted error is the prefixed message, where the claim requires a
cleanup attempt for every catastrophic exception. -/
theorem C3_counterexample :
    (runWorkflow c3Env false false).caught = some (.other "disk full") ∧
    (runWorkflow c3Env false false).emergencyCleanupAttempted = false ∧
    finalView (runWorkflow c3Env false false) =
      { status := some "failed"
        error := some "Unexpected error in REAL workflow: disk full" } := by
  decide

/-- C3 witness: the amended handling applied to the DismError run. -/
theorem C3_amended_witness :
    (runWorkflow c3EnvDism false false).emergencyCleanupAttempted = true ∧
    finalView (runWorkflow c3EnvDism false false) =
      { status := some "failed"
        error := some ("DISM Error in REAL workflow: " ++ "export failed with code 5") } :=
  (C3_amended_exception_handling c3EnvDism false false "export failed with code 5").1
    (by decide)

/-- The step numbers written by the driver stage: 4 twice when drivers are
integrated, 4 once otherwise. -/
theorem driverStageCalls_steps (sd : Bool) (env : WorkflowEnv) :
    (driverStageCalls sd env).filterMap (fun c => c.step_number) = [4, 4] ∨
    (driverStageCalls sd env).filterMap (fun c => c.step_number) = [4] := by
  unfold driverStageCalls
  by_cases h1 : ¬sd = true ∧ env.driverCount ≠ 0
  · rw [if_pos h1]
    left
    by_cases h2 : env.driverIntegrationOk = true
    · simp only [h2]
      rfl
    · simp only [h2]
      rfl
  · rw [if_neg h1]
    right
    by_cases h3 : sd = true
    · rw [if_pos h3]
      rfl
    · rw [if_neg h3]
      rfl

/-- The step numbers written by the update stage: 5 twice when updates are
integrated, 5 once otherwise. -/
theorem updateStageCalls_steps (su : Bool) (env : WorkflowEnv) :
    (updateStageCalls su env).filterMap (fun c => c.step_number) = [5, 5] ∨
    (updateStageCalls su env).filterMap (fun c => c.step_number) = [5] := by
  unfold updateStageCalls
  by_cases h1 : ¬su = true ∧ env.updateCount ≠ 0
  · rw [if_pos h1]
    left
    by_cases h2 : env.updateIntegrationOk = true
    · simp only [h2]
      rfl
    · simp only [h2]
      rfl
  · rw [if_neg h1]
    right
    by_cases h3 : su = true
    · rw [if_pos h3]
      rfl
    · rw [if_neg h3]
      rfl

/-- C8 (amended): over every possible run of the workflow — any environment
behaviour, any skip flags, failures included — the sequence of step_number
values written by successive job updates is monotonically non-decreasing: it
never regresses.  It is not strictly increasing: a stage that integrates
assets writes its step number twice (start and completion). -/
theorem C8_amended_steps_nondecreasing (env : WorkflowEnv) (sd su : Bool) :
    (stepNumbersOf (runWorkflow env sd su)).Chain' (· ≤ ·) := by
  unfold stepNumbersOf runWorkflow
  split
  · simp [failUpdate]
  · split
    · unfold handleExc
      cases ‹WfExc› <;> simp [failUpdate, List.filterMap_append]
    · split
      · unfold handleExc
        cases ‹WfExc› <;> simp [failUpdate, List.filterMap_append]
      · split
        · unfold handleExc
          simp [failUpdate, List.filterMap_append]
          try decide
        · rcases driverStageCalls_steps sd env with hd | hd <;>
          rcases updateStageCalls_steps su env with hu | hu <;>
          · split
            · unfold handleExc
              cases ‹WfExc› <;>
                simp [failUpdate, List.filterMap_append, hd, hu]
            · split
              · unfold handleExc
                cases ‹WfExc› <;>
                  simp [failUpdate, List.filterMap_append, hd, hu]
              · simp [List.filterMap_append, hd, hu]
                try decide

/-- C8 counterexample: a successful run that integrates one driver writes
the step numbers 1,2,3,4,4,5,6,7,8 — step 4 repeats, so the sequence is not
strictly monotonically increasing as the claim states. -/
theorem C8_counterexample :
    stepNumbersOf (runWorkflow c8Env false false) = [1, 2, 3, 4, 4, 5, 6, 7, 8] ∧
    ¬ (stepNumbersOf (runWorkflow c8Env false false)).Chain' (· < ·) := by
  have h1 : stepNumbersOf (runWorkflow c8Env false false) = [1, 2, 3, 4, 4, 5, 6, 7, 8] := by
    decide
  refine ⟨h1, ?_⟩
  intro h
  rw [h1] at h
  have p1 := (List.chain'_cons.mp h).2
  have p2 := (List.chain'_cons.mp p1).2
  have p3 := (List.chain'_cons.mp p2).2
  have p4 := (List.chain'_cons.mp p3).1
  exact absurd p4 (lt_irrefl 4)

/-- C9 witness: the round trip on a fresh store with mixed boolean flags. -/
theorem C9_roundtrip_witness :
    ∃ out, getJob (createJob [] c9Data).1 c9Data.id = some out ∧
      out.id = c9Data.id ∧ out.device = c9Data.device ∧ out.os_id = c9Data.os_id ∧
      out.status = c9Data.status ∧ out.progress = c9Data.progress ∧
      out.current_step = c9Data.current_step ∧ out.step_number = c9Data.step_number ∧
      out.total_steps = c9Data.total_steps ∧ out.created_at = c9Data.created_at ∧
      out.started_at = c9Data.started_at ∧ out.completed_at = c9Data.completed_at ∧
      out.error = c9Data.error ∧ out.results = c9Data.results ∧
      out.user_id = c9Data.user_id ∧
      pyEqBool c9Data.skip_drivers out.skip_drivers ∧
      pyEqBool c9Data.skip_updates out.skip_updates ∧
      pyEqBool c9Data.skip_validation out.skip_validation ∧
      out.created_by = c9Data.created_by :=
  C9_roundtrip [] c9Data (by decide)
